import Mathlib

/-!
Verification development for the AI-Floor-Plan-Gen repository.

The repository ships a React frontend (two dashboard variants and their
shared types) together with a specification of a constraint-directed
placement-and-validation core.  The core engine itself (feasibility
validator, placement engine, repairer, post-placement validator) is not
part of the checked-in sources, so it is modelled here from the spec;
the frontend functions (`colorForType`, `commit`/`undo`/`redo`,
`generateLayout` in both dashboard variants) are embedded directly from
the TypeScript sources.
-/

namespace FloorPlan

/-! ### Geometry -/

/-- Axis-aligned rectangle with rational coordinates (the spec works over
positive reals; all concrete data in the repository is rational). -/
structure Rect where
  x : ℚ
  y : ℚ
  w : ℚ
  h : ℚ
deriving DecidableEq, Repr

/-- Two rectangles overlap iff both their x-intervals and their
y-intervals have positive-length intersection (open-interval test;
edge-touching is not overlap).  Taken from the spec data-model section. -/
def Overlaps (a b : Rect) : Prop :=
  max a.x b.x < min (a.x + a.w) (b.x + b.w) ∧
  max a.y b.y < min (a.y + a.h) (b.y + b.h)

instance : DecidablePred fun p : Rect × Rect => Overlaps p.1 p.2 :=
  fun _ => by unfold Overlaps; infer_instance

instance (a b : Rect) : Decidable (Overlaps a b) := by
  unfold Overlaps; infer_instance

/-- Boolean overlap test used inside the executable engine. -/
def overlapsB (a b : Rect) : Bool :=
  decide (Overlaps a b)


/-- Plot dimensions. -/
structure Plot where
  width : ℚ
  height : ℚ
deriving DecidableEq, Repr

/-- Containment of a rectangle in the plot, exactly as the spec states the
invariant: `0 ≤ x`, `0 ≤ y`, `x+width ≤ plot.width`, `y+height ≤ plot.height`. -/
def InPlot (r : Rect) (pl : Plot) : Prop :=
  0 ≤ r.x ∧ 0 ≤ r.y ∧ r.x + r.w ≤ pl.width ∧ r.y + r.h ≤ pl.height

instance (r : Rect) (pl : Plot) : Decidable (InPlot r pl) := by
  unfold InPlot; infer_instance

def rectInPlotB (r : Rect) (pl : Plot) : Bool :=
  decide (InPlot r pl)

/-- Two rectangles share a boundary segment of non-zero length: they touch
along a common vertical or horizontal edge and the perpendicular intervals
have positive-length intersection.  This is the precise adjacency
definition the spec recommends for the privacy rule. -/
def SharesBoundary (a b : Rect) : Prop :=
  ((a.x + a.w = b.x ∨ b.x + b.w = a.x) ∧
    max a.y b.y < min (a.y + a.h) (b.y + b.h)) ∨
  ((a.y + a.h = b.y ∨ b.y + b.h = a.y) ∧
    max a.x b.x < min (a.x + a.w) (b.x + b.w))

instance (a b : Rect) : Decidable (SharesBoundary a b) := by
  unfold SharesBoundary; infer_instance

/-- Privacy violation between a bathroom rectangle and the entrance
rectangle: overlap, or a shared boundary segment of non-zero length. -/
def PrivacyViolation (bath ent : Rect) : Prop :=
  Overlaps bath ent ∨ SharesBoundary bath ent

instance (a b : Rect) : Decidable (PrivacyViolation a b) := by
  unfold PrivacyViolation; infer_instance

def privacyViolationB (bath ent : Rect) : Bool :=
  decide (PrivacyViolation bath ent)

/-! ### Boolean pairwise helper -/

/-- Boolean pairwise check over a list. -/
def pairwiseB (p : α → α → Bool) : List α → Bool
  | [] => true
  | x :: xs => xs.all (p x) && pairwiseB p xs


/-! ### Constraint Model (spec-modelled core)

The backend placement core is not among the checked-in sources; every
definition in this section is modelled from the spec. -/

/-- Modelled from the spec: element priority `{low, medium, high}`. -/
inductive Priority where
  | low
  | medium
  | high
deriving DecidableEq, Repr

/-- Numeric rank of a priority, used for the high-to-low placement order. -/
def prioNum : Priority → Nat
  | .low => 0
  | .medium => 1
  | .high => 2

/-- Modelled from the spec: one element entry of the incoming Constraint
Document `{kind, count?, area?, width?, height?, position?, priority?, locked?}`. -/
structure DocElem where
  id : Option String := none
  kind : String
  count : Option Nat := none
  area : Option ℚ := none
  width : Option ℚ := none
  height : Option ℚ := none
  position : Option String := none
  priority : Option Priority := none
  locked : Option Bool := none
deriving DecidableEq, Repr

/-- Modelled from the spec: the Constraint Document
`{plot: {width, height}, elements: [...]}` consumed by the core. -/
structure ConstraintDoc where
  plot : Plot
  elements : List DocElem
deriving DecidableEq, Repr

/-- Modelled from the spec: a single expanded, normalized element instance
of the Constraint Model (defaults filled: unlocked, medium priority, no
position hint; `count` expanded away). -/
structure MElem where
  id : String
  kind : String
  width : ℚ
  height : ℚ
  position : Option String
  priority : Priority
  locked : Bool
deriving DecidableEq, Repr

/-- Modelled from the spec: the validated in-memory Constraint Model. -/
structure Model where
  plot : Plot
  elements : List MElem
deriving DecidableEq, Repr

/-- Integer square root by bounded search (structurally recursive, so the
kernel can evaluate it on concrete inputs). -/
def intSqrt (n : Nat) : Nat :=
  (List.range (n + 1)).foldl (fun acc k => if k * k ≤ n then k else acc) 0

/-- Modelled from the spec: aspect-ratio heuristic deriving width and
height from a target area when only the area is given (near-square split;
the product of the derived dimensions equals the requested area). -/
def deriveDims (a : ℚ) : ℚ × ℚ :=
  let s : ℚ := (intSqrt a.ceil.toNat : ℚ)
  if s = 0 then (a, 1) else (s, a / s)

/-- Modelled from the spec: derived instance id such as `kind#n` assigned
during count-expansion. -/
def mkId (e : DocElem) (i n : Nat) : String :=
  let base := e.id.getD e.kind
  if n = 1 then base else base ++ "#" ++ toString (i + 1)

/-- Modelled from the spec: expansion of one document element into `count`
individual Model instances, failing (`MalformedInputError`) when the
element declares neither an area nor both width and height, or when the
count is not a positive integer. -/
def expandElem (e : DocElem) : Except (List String) (List MElem) :=
  let n := e.count.getD 1
  if n = 0 then
    .error ["count must be a positive integer: " ++ e.kind]
  else
    match e.width, e.height with
    | some w, some h => .ok ((List.range n).map fun i =>
        { id := mkId e i n, kind := e.kind, width := w, height := h,
          position := e.position, priority := e.priority.getD .medium,
          locked := e.locked.getD false })
    | _, _ =>
      match e.area with
      | some a =>
        let wh := deriveDims a
        .ok ((List.range n).map fun i =>
          { id := mkId e i n, kind := e.kind, width := wh.1, height := wh.2,
            position := e.position, priority := e.priority.getD .medium,
            locked := e.locked.getD false })
      | none =>
        .error ["element declares neither area nor both width and height: " ++ e.kind]

/-- Modelled from the spec: Constraint Model construction — validate the
plot, expand counts, fill defaults; `MalformedInputError` (the `.error`
branch) when plot dimensions are non-positive or an element is malformed. -/
def buildModel (d : ConstraintDoc) : Except (List String) Model :=
  if d.plot.width ≤ 0 ∨ d.plot.height ≤ 0 then
    .error ["plot dimensions missing or non-positive"]
  else do
    let ess ← d.elements.mapM expandElem
    .ok { plot := d.plot, elements := ess.flatten }

/-- Modelled from the spec: resolution of position tokens to anchor
coordinates ("left" anchors at x=0; "right" at x = plot.width − width;
"middle"/"south_center" centers horizontally anchored to the south edge;
unrecognized or absent hints degrade to the origin anchor). -/
def resolveRect (e : MElem) (pl : Plot) : Rect :=
  let p := e.position.getD ""
  if p = "left" then ⟨0, 0, e.width, e.height⟩
  else if p = "right" then ⟨pl.width - e.width, 0, e.width, e.height⟩
  else if p = "middle" ∨ p = "south_center" then
    ⟨(pl.width - e.width) / 2, pl.height - e.height, e.width, e.height⟩
  else if p = "top-left" then ⟨0, 0, e.width, e.height⟩
  else ⟨0, 0, e.width, e.height⟩

/-- Modelled from the spec: private-kind categories (bedroom, bathroom). -/
def privateKind (k : String) : Bool :=
  k = "bedroom" || k = "bathroom"

/-- Modelled from the spec: the bathroom category subject to the privacy rule. -/
def bathroomKind (k : String) : Bool :=
  k = "bathroom"

/-- Modelled from the spec: the entrance category whose adjacency zone the
privacy rule protects. -/
def entranceKind (k : String) : Bool :=
  k = "entrance"

/-! ### Feasibility Validator (spec-modelled) -/

/-- Modelled from the spec: configurable slack factor of the aggregate-area
feasibility check (chosen as 1, consistent with the spec scenario where a
10x10 plot rejects a single area-200 element). -/
def slackFactor : ℚ := 1

def plotArea (pl : Plot) : ℚ := pl.width * pl.height

/-- Total of width times height over all model elements. -/
def sumAreas (es : List MElem) : ℚ :=
  (es.map fun e => e.width * e.height).sum

/-- Modelled from the spec: pre-placement static checks, one Conflict per
violated check — aggregate element area against plot area times the slack
factor, and each fixed/locked element's rectangle fitting within the plot
(free-text position hints are advisory and never fail validation). -/
def feasConflicts (m : Model) : List String :=
  (if slackFactor * plotArea m.plot < sumAreas m.elements then
    ["total-area-exceeds-plot"] else []) ++
  ((m.elements.filter fun e =>
      e.locked && !rectInPlotB (resolveRect e m.plot) m.plot).map
    fun e => "locked-element-out-of-bounds: " ++ e.id)

/-! ### Placement Engine (spec-modelled) -/

/-- Modelled from the spec: the engine's output unit
`{elementRef, kind, x, y, width, height}` (a Placed Rectangle). -/
structure Placement where
  id : String
  kind : String
  rect : Rect
deriving DecidableEq, Repr

/-- The whole plot as the initial free-space region. -/
def fullRect (pl : Plot) : Rect := ⟨0, 0, pl.width, pl.height⟩

/-- Modelled from the spec: guillotine subtraction of a placed rectangle
from one free rectangle — the free space is tracked as the complement of
the occupied regions. -/
def subtractRect (f r : Rect) : List Rect :=
  if overlapsB f r then
    ([⟨f.x, f.y, r.x - f.x, f.h⟩,
      ⟨r.x + r.w, f.y, (f.x + f.w) - (r.x + r.w), f.h⟩,
      ⟨max f.x r.x, f.y, min (f.x + f.w) (r.x + r.w) - max f.x r.x, r.y - f.y⟩,
      ⟨max f.x r.x, r.y + r.h, min (f.x + f.w) (r.x + r.w) - max f.x r.x,
        (f.y + f.h) - (r.y + r.h)⟩] :
      List Rect).filter fun p => decide (0 < p.w) && decide (0 < p.h)
  else [f]

/-- Subtraction of a placed rectangle from the whole free-space partition. -/
def subtractAll (free : List Rect) (r : Rect) : List Rect :=
  free.flatMap fun f => subtractRect f r

/-- Stable insertion of an element into a list sorted by `le`: the element
goes in front of the first entry it compares less-or-equal to. -/
def insertBy (le : α → α → Bool) (x : α) : List α → List α
  | [] => [x]
  | y :: ys => if le x y then x :: y :: ys else y :: insertBy le x ys

/-- Stable insertion sort by a Boolean comparison (the spec requires a
deterministic, stable ordering; ties keep the earliest declared element
first). -/
def sortBy (le : α → α → Bool) : List α → List α
  | [] => []
  | x :: xs => insertBy le x (sortBy le xs)

/-- Scan order of free sub-regions: left-to-right, then top-to-bottom. -/
def freeLe (a b : Rect) : Bool :=
  decide (a.y < b.y) || (decide (a.y = b.y) && decide (a.x ≤ b.x))

/-- Modelled from the spec: the shelf/row scan — candidate top-left
anchored rectangles of the requested size in every free sub-region that
fits it, in scan order. -/
def candidates (free : List Rect) (w h : ℚ) : List Rect :=
  (sortBy freeLe free).filterMap fun f =>
    if decide (w ≤ f.w) && decide (h ≤ f.h) then
      some ⟨f.x, f.y, w, h⟩
    else none

/-- Modelled from the spec: placement of a single element — first fitting
candidate sub-region in scan order, trying the 90-degree width/height swap
when the exact rectangle does not fit; for bathroom kinds the scan skips
candidate sub-regions violating the entrance-adjacency privacy test. -/
def tryPlace (free : List Rect) (e : MElem) (ents : List Placement) :
    Option (Rect × List Rect) :=
  let ok := fun (r : Rect) =>
    !bathroomKind e.kind || ents.all fun p => !privacyViolationB r p.rect
  match (candidates free e.width e.height).find? ok with
  | some r => some (r, subtractAll free r)
  | none =>
    match (candidates free e.height e.width).find? ok with
    | some r => some (r, subtractAll free r)
    | none => none

/-- Intermediate state of one placement pass: newly placed rectangles,
remaining free space, elements recorded as needing repair. -/
structure PassState where
  placed : List Placement
  free : List Rect
  unplaced : List MElem
deriving Repr

/-- One step of the sequential placement fold. -/
def placeStep (prev : List Placement) (st : PassState) (e : MElem) : PassState :=
  match tryPlace st.free e ((prev ++ st.placed).filter fun p => entranceKind p.kind) with
  | some rf => { st with placed := st.placed ++ [⟨e.id, e.kind, rf.1⟩], free := rf.2 }
  | none => { st with unplaced := st.unplaced ++ [e] }

/-- Sequential placement of a list of elements into the free space, with
entrance placements (already made or made during this pass) feeding the
privacy test. -/
def placeSeq (prev : List Placement) (free : List Rect) (es : List MElem) :
    PassState :=
  es.foldl (placeStep prev) ⟨[], free, []⟩

/-- Modelled from the spec: placement order among unfixed elements —
priority high-to-low, then declared area large-to-small; the stable sort
leaves the earliest declared element first on ties. -/
def orderLe (a b : MElem) : Bool :=
  decide (prioNum b.priority < prioNum a.priority) ||
    (decide (prioNum a.priority = prioNum b.priority) &&
      decide (b.width * b.height ≤ a.width * a.height))

def sortElems (es : List MElem) : List MElem :=
  sortBy orderLe es

/-- The Placed Rectangle of an element at its resolved coordinates. -/
def mkPlacement (pl : Plot) (e : MElem) : Placement :=
  ⟨e.id, e.kind, resolveRect e pl⟩

/-- Modelled from the spec: phase 1 — every locked element placed at its
position-hint-resolved coordinates, in input order. -/
def phase1 (m : Model) : List Placement :=
  (m.elements.filter fun e => e.locked).map (mkPlacement m.plot)

/-- Free space remaining after the locked placements of phase 1. -/
def freeAfterPhase1 (m : Model) : List Rect :=
  (phase1 m).foldl (fun fr p => subtractAll fr p.rect) [fullRect m.plot]

/-- Phase-2 queue: non-locked public-kind (and unknown-kind, which receive
no special rules) elements in placement order. -/
def pubElems (m : Model) : List MElem :=
  sortElems ((m.elements.filter fun e => !e.locked).filter fun e => !privateKind e.kind)

/-- Phase-3 queue: non-locked private-kind elements in placement order. -/
def prvElems (m : Model) : List MElem :=
  sortElems ((m.elements.filter fun e => !e.locked).filter fun e => privateKind e.kind)

/-- Phase 2: public-area placement into the free space left by phase 1. -/
def pass2 (m : Model) : PassState :=
  placeSeq (phase1 m) (freeAfterPhase1 m) (pubElems m)

/-- Phase 3: private-area placement under the privacy rule. -/
def pass3 (m : Model) : PassState :=
  placeSeq (phase1 m ++ (pass2 m).placed) (pass2 m).free (prvElems m)

/-- Modelled from the spec: the four ordered placement phases — locked
elements first, then public-kind elements, then private-kind elements
under the privacy rule, collecting unplaceable elements for repair. -/
def placeModel (m : Model) : List Placement × List MElem :=
  (phase1 m ++ (pass2 m).placed ++ (pass3 m).placed,
   (pass2 m).unplaced ++ (pass3 m).unplaced)

/-! ### Post-Placement Validator (spec-modelled) -/

/-- Modelled from the spec: the authoritative final gate — exhaustive
pairwise overlap test, bounds check against the plot, and the
bathroom-to-entrance privacy re-check. -/
def postValidateB (pl : Plot) (ps : List Placement) : Bool :=
  pairwiseB (fun a b => !overlapsB a.rect b.rect) ps &&
  (ps.all fun p => rectInPlotB p.rect pl) &&
  (ps.all fun b => !bathroomKind b.kind ||
    ps.all fun e => !entranceKind e.kind || !privacyViolationB b.rect e.rect)

/-- All ordered pairs of distinct-position list entries. -/
def allPairs : List α → List (α × α)
  | [] => []
  | x :: xs => (xs.map fun y => (x, y)) ++ allPairs xs

/-- Modelled from the spec: human-readable Conflict entries of a failed
attempt — one per unplaceable element, overlapping pair, out-of-bounds
placement, or privacy violation. -/
def conflictStrings (pl : Plot) (ps : List Placement) (un : List MElem) :
    List String :=
  (un.map fun e => "could-not-place: " ++ e.id) ++
  (((allPairs ps).filter fun q => overlapsB q.1.rect q.2.rect).map
    fun q => q.1.id ++ " overlaps with " ++ q.2.id) ++
  ((ps.filter fun p => !rectInPlotB p.rect pl).map
    fun p => "out-of-bounds: " ++ p.id) ++
  (((allPairs ps).filter fun q =>
      (bathroomKind q.1.kind && entranceKind q.2.kind &&
        privacyViolationB q.1.rect q.2.rect) ||
      (bathroomKind q.2.kind && entranceKind q.1.kind &&
        privacyViolationB q.2.rect q.1.rect)).map
    fun q => "privacy: " ++ q.1.id ++ " adjacent to " ++ q.2.id)

/-- Modelled from the spec: heuristic Suggestions implied by the repair
transformations that could not resolve the conflicts. -/
def suggestStrings (un : List MElem) : List String :=
  un.map fun e => "reduce " ++ e.kind ++ " size or relax its position"

/-- Element ids involved in the current attempt's conflicts (the offending
set handed to the Repairer). -/
def offIds (pl : Plot) (ps : List Placement) (un : List MElem) : List String :=
  (un.map fun e => e.id) ++
  (((allPairs ps).filter fun q => overlapsB q.1.rect q.2.rect).flatMap
    fun q => [q.1.id, q.2.id]) ++
  ((ps.filter fun p => !rectInPlotB p.rect pl).map fun p => p.id)

/-! ### Repairer (spec-modelled) -/

/-- Modelled from the spec: minimum dimension floor of the shrink repair. -/
def minFloor : ℚ := 1

/-- Modelled from the spec: one corrective transformation on an offending
non-locked element, in order of increasing intrusiveness — shrink the
non-dominant dimension by a fixed percentage down to the floor, then relax
the position hint to no preference, then promote the element in placement
order; locked elements are never touched. -/
def amendElem (off : List String) (e : MElem) : MElem :=
  if e.locked || !off.contains e.id then e
  else if minFloor < min e.width e.height then
    if e.width ≤ e.height then
      { e with width := max minFloor (e.width * (4 / 5)) }
    else
      { e with height := max minFloor (e.height * (4 / 5)) }
  else if e.position.isSome then { e with position := none }
  else { e with priority := .high }

/-- Modelled from the spec: the Repairer's amended Model — a new Model with
only the offending non-locked elements adjusted. -/
def amend (m : Model) (off : List String) : Model :=
  { m with elements := m.elements.map (amendElem off) }

/-- Result of one generation request: `MalformedInputError`,
`InfeasibleRequestError` with its Conflicts, a placement failure with
Conflicts and Suggestions, or a validated success geometry. -/
inductive Result where
  | malformed : List String → Result
  | infeasible : List String → Result
  | failed : List String → List String → Result
  | success : Plot → List Placement → Result
deriving DecidableEq, Repr

/-- Modelled from the spec: the bounded repair loop — place, gate through
the Post-Placement Validator, and on conflict amend the Model and retry,
up to the round budget; on exhaustion return the last attempt's Conflicts
and Suggestions. -/
def repairLoop : Nat → Model → Result
  | 0, m =>
    if (placeModel m).2.isEmpty && postValidateB m.plot (placeModel m).1 then
      Result.success m.plot (placeModel m).1
    else
      Result.failed (conflictStrings m.plot (placeModel m).1 (placeModel m).2)
        (suggestStrings (placeModel m).2)
  | Nat.succ k, m =>
    if (placeModel m).2.isEmpty && postValidateB m.plot (placeModel m).1 then
      Result.success m.plot (placeModel m).1
    else
      repairLoop k (amend m (offIds m.plot (placeModel m).1 (placeModel m).2))

/-- Modelled from the spec: maximum number of repair rounds. -/
def maxRepairRounds : Nat := 3

/-- Modelled from the spec: the whole core pipeline — Model construction,
Feasibility Validator (stopping before any placement on infeasibility),
Placement Engine with Repairer loop, Post-Placement Validator gate. -/
def generate (d : ConstraintDoc) : Result :=
  match buildModel d with
  | .error msgs => Result.malformed msgs
  | .ok m =>
    if (feasConflicts m).isEmpty then repairLoop maxRepairRounds m
    else Result.infeasible (feasConflicts m)

end FloorPlan

namespace Frontend

/-! ### Frontend embeddings (from the TypeScript sources under src/) -/

/-- Embedding of the JavaScript `toLowerCase()` call: lowercase every
character of the string. -/
def lowerStr (s : String) : String :=
  ⟨s.data.map Char.toLower⟩

/-- Embedding of the JavaScript `trim()` call: drop leading and trailing
whitespace. -/
def trimStr (s : String) : String :=
  ⟨((s.data.dropWhile Char.isWhitespace).reverse.dropWhile Char.isWhitespace).reverse⟩

/-- Hue table for recognized feature types, from the Generative Layout
Studio dashboard (`typeHue` record). -/
def typeHue (t : String) : Option Nat :=
  if t = "park" then some 140
  else if t = "pool" then some 200
  else if t = "entrance" then some 20
  else if t = "house" then some 30
  else if t = "garage" then some 0
  else if t = "bbq" then some 10
  else none

/-- Fill color for a feature type: hue of the lowercased type when
recognized, fallback hue 260 otherwise (`colorForType`). -/
def colorForType (type : String) : String :=
  let hue := (typeHue (lowerStr type)).getD 260
  "hsl(" ++ toString hue ++ " 70% 45%)"

/-- Priority union from `features/dashboard/types.ts`. -/
inductive UIPriority where
  | low
  | medium
  | high
deriving DecidableEq, Repr

/-- `ElementConstraint` from `features/dashboard/types.ts`. -/
structure ElementConstraint where
  id : String
  type : String
  width : Option ℚ := none
  height : Option ℚ := none
  position : Option String := none
  priority : Option UIPriority := none
  locked : Option Bool := none
deriving DecidableEq, Repr

/-- Lot dimensions, the `lot` field of `StructuredConstraints`. -/
structure Lot where
  width : ℚ
  height : ℚ
deriving DecidableEq, Repr

/-- `StructuredConstraints` from `features/dashboard/types.ts`. -/
structure StructuredConstraints where
  lot : Lot
  elements : List ElementConstraint
  notes : Option String := none
deriving DecidableEq, Repr

/-- `LayoutFeature` from `features/dashboard/types.ts`. -/
structure LayoutFeature where
  type : String
  x : ℚ
  y : ℚ
  width : ℚ
  height : ℚ
  id : Option String := none
deriving DecidableEq, Repr

/-- `LayoutResponse` from `features/dashboard/types.ts`. -/
structure LayoutResponse where
  lot : Lot
  features : List LayoutFeature
deriving DecidableEq, Repr

/-! #### Undo/redo state of the Generative Layout Studio dashboard -/

/-- The three React state cells `constraints`, `history`, `future`
involved in the undo/redo logic. -/
structure UIState where
  constraints : StructuredConstraints
  history : List StructuredConstraints
  future : List StructuredConstraints
deriving DecidableEq, Repr

/-- `commit(next)`: push the current constraints onto the history, clear
the future stack, adopt the new constraints. -/
def commit (next : StructuredConstraints) (s : UIState) : UIState :=
  { constraints := next,
    history := s.history ++ [s.constraints],
    future := [] }

/-- `undo()`: no-op on empty history; otherwise pop the last history
entry into `constraints` and push the current constraints onto the
future stack. -/
def undo (s : UIState) : UIState :=
  match s.history.getLast? with
  | none => s
  | some prev =>
    { constraints := prev,
      history := s.history.dropLast,
      future := s.constraints :: s.future }

/-- `redo()`: no-op on empty future; otherwise shift the first future
entry into `constraints` and push the current constraints onto the
history. -/
def redo (s : UIState) : UIState :=
  match s.future with
  | [] => s
  | next :: rest =>
    { constraints := next,
      history := s.history ++ [s.constraints],
      future := rest }

/-! #### Response handling of `generateLayout` in the Generative Layout
Studio dashboard (the variant with conflicts and suggestions state) -/

/-- The React state cells touched by `generateLayout`. -/
structure GLState where
  loading : Bool
  lastError : Option String
  conflicts : List String
  suggestions : List String
  layout : Option LayoutResponse
deriving DecidableEq, Repr

/-- The parsed generation response: `res.ok`, plus the `error`,
`conflicts` and `suggestions` fields of the JSON body (absent or falsy
`error` is modelled as `none`) and the success payload. -/
structure GenResponse where
  ok : Bool
  error : Option String
  conflicts : Option (List String)
  suggestions : Option (List String)
  payload : LayoutResponse
deriving DecidableEq, Repr

/-- State transition of `generateLayout` once the response arrived: the
pre-fetch resets, then either the non-ok/error branch (set error text,
conflicts, suggestions, clear the layout) or the success branch, then the
`finally` reset of the loading flag. -/
def generateLayout (r : GenResponse) (s : GLState) : GLState :=
  let s1 : GLState :=
    { s with loading := true, lastError := none, conflicts := [], suggestions := [] }
  let s2 : GLState :=
    if !r.ok || r.error.isSome then
      { s1 with
        lastError := some (r.error.getD "Layout generation failed"),
        conflicts := r.conflicts.getD [],
        suggestions := r.suggestions.getD [],
        layout := none }
    else { s1 with layout := some r.payload }
  { s2 with loading := false }

/-! #### The AI Floor Plan dashboard (`dashboard.tsx`) -/

/-- The React state cells of `dashboard.tsx` touched by its
`generateLayout`. -/
structure DashState where
  loading : Bool
  lastError : Option String
  conflicts : List String
  layout : Option LayoutResponse
deriving DecidableEq, Repr

/-- The JSON body `generateLayout` posts to the backend. -/
structure GenRequest where
  mode : String
  text : String
deriving DecidableEq, Repr

/-- Pre-network portion of `generateLayout(text)` in `dashboard.tsx`: on
blank (trimmed-empty) input set the error message and return without a
request; otherwise reset the state cells and issue the freeform request. -/
def dashGenerateLayout (text : String) (s : DashState) :
    DashState × Option GenRequest :=
  if trimStr text = "" then
    ({ s with lastError := some "Please enter a description." }, none)
  else
    ({ loading := true, lastError := none, conflicts := [], layout := none },
      some ⟨"freeform", text⟩)

end Frontend

/-! ### Concrete fixtures used by the witnesses -/

/-- A blank dashboard state. -/
def exDashState : Frontend.DashState := ⟨false, none, [], none⟩

/-- An initial UI state for the undo/redo fixtures. -/
def exUIState : Frontend.UIState := ⟨⟨⟨100, 60⟩, [], none⟩, [], []⟩

/-- A committed constraints value for the undo/redo fixtures. -/
def exConstraints : Frontend.StructuredConstraints := ⟨⟨50, 40⟩, [], none⟩

/-- A non-ok generation response carrying no conflict or suggestion fields. -/
def exResponse : Frontend.GenResponse := ⟨false, none, none, none, ⟨⟨100, 60⟩, []⟩⟩

/-- A dashboard state holding a previously displayed layout. -/
def exGLState : Frontend.GLState := ⟨false, none, [], [], some ⟨⟨100, 60⟩, []⟩⟩

open FloorPlan in
/-- Boolean overlap test agrees with the overlap predicate. -/
theorem overlapsB_iff (a b : Rect) : overlapsB a b = true ↔ Overlaps a b := by
  simp [overlapsB]

open FloorPlan in
/-- Boolean pairwise check agrees with `List.Pairwise`. -/
theorem pairwiseB_eq_true_iff (p : α → α → Bool) (l : List α) :
    pairwiseB p l = true ↔ l.Pairwise (fun a b => p a b = true) := by
  induction l with
  | nil => simp [pairwiseB]
  | cons x xs ih =>
    simp only [pairwiseB, Bool.and_eq_true, List.all_eq_true, List.pairwise_cons, ih]

open FloorPlan in
/-- A feasible five-element request: a locked park on the left, an
entrance, a kitchen, two bedrooms and a bathroom on a 100x60 plot. -/
def exDoc : ConstraintDoc := ⟨⟨100, 60⟩, [
  ⟨none, "park", none, none, some 30, some 20, some "left", some .high, some true⟩,
  ⟨none, "entrance", none, none, some 10, some 8, some "middle", some .high, none⟩,
  ⟨none, "kitchen", none, none, some 12, some 10, none, none, none⟩,
  ⟨none, "bedroom", some 2, none, some 12, some 10, none, none, none⟩,
  ⟨none, "bathroom", none, none, some 6, some 6, none, none, none⟩]⟩

open FloorPlan in
/-- The Constraint Model built from `exDoc`. -/
def exModel : Model := ⟨⟨100, 60⟩, [
  ⟨"park", "park", 30, 20, some "left", .high, true⟩,
  ⟨"entrance", "entrance", 10, 8, some "middle", .high, false⟩,
  ⟨"kitchen", "kitchen", 12, 10, none, .medium, false⟩,
  ⟨"bedroom#1", "bedroom", 12, 10, none, .medium, false⟩,
  ⟨"bedroom#2", "bedroom", 12, 10, none, .medium, false⟩,
  ⟨"bathroom", "bathroom", 6, 6, none, .medium, false⟩]⟩

open FloorPlan in
/-- The locked park element of `exModel`. -/
def exPark : MElem := ⟨"park", "park", 30, 20, some "left", .high, true⟩

open FloorPlan in
/-- The placements the engine produces for `exDoc`. -/
def exPs : List Placement := [
  ⟨"park", "park", ⟨0, 0, 30, 20⟩⟩,
  ⟨"entrance", "entrance", ⟨30, 0, 10, 8⟩⟩,
  ⟨"kitchen", "kitchen", ⟨40, 0, 12, 10⟩⟩,
  ⟨"bedroom#1", "bedroom", ⟨52, 0, 12, 10⟩⟩,
  ⟨"bedroom#2", "bedroom", ⟨64, 0, 12, 10⟩⟩,
  ⟨"bathroom", "bathroom", ⟨76, 0, 6, 6⟩⟩]

open FloorPlan in
/-- An infeasible request: a 10x10 plot with one element of area 200. -/
def infDoc : ConstraintDoc :=
  ⟨⟨10, 10⟩, [⟨none, "hall", none, some 200, none, none, none, none, none⟩]⟩

open FloorPlan in
/-- The Constraint Model built from `infDoc` (area-derived dimensions). -/
def infModel : Model :=
  ⟨⟨10, 10⟩, [⟨"hall", "hall", 14, 100 / 7, none, .medium, false⟩]⟩

/-! ### Claim theorems: frontend -/

/-- C8: unknown kinds receive the single neutral fallback styling — for
every type string whose lowercase form is not one of park, pool, entrance,
house, garage, bbq, `colorForType` returns `hsl(260 70% 45%)`; every
recognized type gets the color determined by its hue, independently of
the letter case of the input. -/
theorem colorForType_fallback_and_case :
    (∀ s : String,
      Frontend.lowerStr s ∉ (["park", "pool", "entrance", "house", "garage", "bbq"] : List String) →
      Frontend.colorForType s = "hsl(260 70% 45%)") ∧
    (∀ (s : String) (n : Nat), Frontend.typeHue (Frontend.lowerStr s) = some n →
      Frontend.colorForType s = "hsl(" ++ toString n ++ " 70% 45%)") := by
  constructor
  · intro s hs
    have hnone : Frontend.typeHue (Frontend.lowerStr s) = none := by
      unfold Frontend.typeHue
      split_ifs with h1 h2 h3 h4 h5 h6 <;> simp_all
    have hc : Frontend.colorForType s =
        "hsl(" ++ toString ((Frontend.typeHue (Frontend.lowerStr s)).getD 260) ++ " 70% 45%)" := rfl
    rw [hc, hnone]
    rfl
  · intro s n hn
    have hc : Frontend.colorForType s =
        "hsl(" ++ toString ((Frontend.typeHue (Frontend.lowerStr s)).getD 260) ++ " 70% 45%)" := rfl
    rw [hc, hn]
    rfl

/-- Witness for C8 at the concrete inputs "Bedroom" (unknown kind) and
"PARK" (recognized up to case). -/
theorem colorForType_witness :
    Frontend.colorForType "Bedroom" = "hsl(260 70% 45%)" ∧
    Frontend.colorForType "PARK" = "hsl(" ++ toString 140 ++ " 70% 45%)" :=
  ⟨colorForType_fallback_and_case.1 "Bedroom" (by decide),
   colorForType_fallback_and_case.2 "PARK" 140 (by decide)⟩

/-- C9: the undo/redo history is an append-only stack with exact
round-trips — after `commit c` the future stack is empty, `undo`
restores the pre-commit constraints while pushing `c` onto the future
stack, a following `redo` restores `c`, and `undo` on empty history and
`redo` on empty future leave the state unchanged. -/
theorem undo_redo_stack_spec :
    (∀ (s : Frontend.UIState) (c : Frontend.StructuredConstraints),
      (Frontend.commit c s).future = [] ∧
      (Frontend.undo (Frontend.commit c s)).constraints = s.constraints ∧
      (Frontend.undo (Frontend.commit c s)).future = c :: (Frontend.commit c s).future ∧
      (Frontend.redo (Frontend.undo (Frontend.commit c s))).constraints = c) ∧
    (∀ s : Frontend.UIState, s.history = [] → Frontend.undo s = s) ∧
    (∀ s : Frontend.UIState, s.future = [] → Frontend.redo s = s) := by
  refine ⟨fun s c => ?_, fun s hs => ?_, fun s hs => ?_⟩
  · have hu : Frontend.undo (Frontend.commit c s) =
        { constraints := s.constraints, history := s.history, future := [c] } := by
      simp [Frontend.undo, Frontend.commit, List.getLast?_concat, List.dropLast_concat]
    exact ⟨rfl, by rw [hu], by rw [hu]; rfl, by rw [hu]; rfl⟩
  · obtain ⟨c, h, f⟩ := s
    simp only at hs
    subst hs
    rfl
  · obtain ⟨c, h, f⟩ := s
    simp only at hs
    subst hs
    rfl

/-- Witness for C9 at a concrete state and commit value. -/
theorem undo_redo_witness :
    (Frontend.redo (Frontend.undo (Frontend.commit exConstraints exUIState))).constraints =
      exConstraints ∧
    Frontend.undo exUIState = exUIState :=
  ⟨(undo_redo_stack_spec.1 exUIState exConstraints).2.2.2,
   undo_redo_stack_spec.2.1 exUIState rfl⟩

/-- C10: on trimmed-empty input the dashboard's `generateLayout` sets the
error message "Please enter a description." and returns before issuing
any network request, leaving the loading flag, the conflicts list and the
displayed layout unchanged. -/
theorem dash_empty_input (s : Frontend.DashState) (text : String)
    (h : Frontend.trimStr text = "") :
    Frontend.dashGenerateLayout text s =
      ({ s with lastError := some "Please enter a description." }, none) := by
  simp [Frontend.dashGenerateLayout, h]

/-- Witness for C10 at a whitespace-only input. -/
theorem dash_empty_input_witness :
    Frontend.dashGenerateLayout "   " exDashState =
      ({ exDashState with lastError := some "Please enter a description." }, none) :=
  dash_empty_input exDashState "   " (by decide)

/-- C7: whenever the generation response is non-ok or carries an error
field, the client's `generateLayout` clears the displayed layout and
takes the conflict and suggestion string lists from the response, using
empty lists when those fields are absent, so the failure result carries
no rendering artifact. -/
theorem failure_response_state (r : Frontend.GenResponse) (s : Frontend.GLState)
    (h : r.ok = false ∨ r.error.isSome = true) :
    (Frontend.generateLayout r s).layout = none ∧
    (Frontend.generateLayout r s).conflicts = r.conflicts.getD [] ∧
    (Frontend.generateLayout r s).suggestions = r.suggestions.getD [] ∧
    (Frontend.generateLayout r s).lastError =
      some (r.error.getD "Layout generation failed") := by
  have hc : (!r.ok || r.error.isSome) = true := by
    rcases h with h | h <;> simp [h]
  simp [Frontend.generateLayout, hc]

/-- Witness for C7 at a concrete non-ok response without conflict or
suggestion fields, over a state holding a previous layout. -/
theorem failure_response_witness :
    (Frontend.generateLayout exResponse exGLState).layout = none ∧
    (Frontend.generateLayout exResponse exGLState).conflicts = exResponse.conflicts.getD [] ∧
    (Frontend.generateLayout exResponse exGLState).suggestions = exResponse.suggestions.getD [] ∧
    (Frontend.generateLayout exResponse exGLState).lastError =
      some (exResponse.error.getD "Layout generation failed") :=
  failure_response_state exResponse exGLState (Or.inl rfl)

open FloorPlan

/-! ### Lemmas about the spec-modelled core -/

/-- A passing Post-Placement Validator implies pairwise non-overlap. -/
theorem postValidateB_no_overlap {pl : Plot} {ps : List Placement}
    (h : postValidateB pl ps = true) :
    ps.Pairwise fun a b => ¬ Overlaps a.rect b.rect := by
  unfold postValidateB at h
  rw [Bool.and_eq_true, Bool.and_eq_true] at h
  have h1 := h.1.1
  rw [pairwiseB_eq_true_iff] at h1
  refine h1.imp fun hab hov => ?_
  rw [Bool.not_eq_true', overlapsB] at hab
  exact absurd hov (of_decide_eq_false hab)

/-- A passing Post-Placement Validator implies containment in the plot. -/
theorem postValidateB_bounds {pl : Plot} {ps : List Placement}
    (h : postValidateB pl ps = true) :
    ∀ p ∈ ps, InPlot p.rect pl := by
  unfold postValidateB at h
  rw [Bool.and_eq_true, Bool.and_eq_true] at h
  have h2 := h.1.2
  rw [List.all_eq_true] at h2
  intro p hp
  have hx := h2 p hp
  rw [rectInPlotB] at hx
  exact of_decide_eq_true hx

/-- A passing Post-Placement Validator implies the privacy invariant. -/
theorem postValidateB_privacy {pl : Plot} {ps : List Placement}
    (h : postValidateB pl ps = true) :
    ∀ b ∈ ps, bathroomKind b.kind = true →
      ∀ e ∈ ps, entranceKind e.kind = true → ¬ PrivacyViolation b.rect e.rect := by
  unfold postValidateB at h
  rw [Bool.and_eq_true, Bool.and_eq_true] at h
  have h3 := h.2
  rw [List.all_eq_true] at h3
  intro b hb hbk e he hek
  have hb' := h3 b hb
  rw [Bool.or_eq_true] at hb'
  rcases hb' with hb' | hb'
  · rw [Bool.not_eq_true', hbk] at hb'
    cases hb'
  · rw [List.all_eq_true] at hb'
    have he' := hb' e he
    rw [Bool.or_eq_true] at he'
    rcases he' with he' | he'
    · rw [Bool.not_eq_true', hek] at he'
      cases he'
    · rw [Bool.not_eq_true', privacyViolationB] at he'
      exact of_decide_eq_false he'

/-- Every success of the repair loop went through the Post-Placement
Validator. -/
theorem repairLoop_success_valid {n : Nat} {m : Model} {pl : Plot}
    {ps : List Placement} (h : repairLoop n m = Result.success pl ps) :
    postValidateB pl ps = true := by
  induction n generalizing m with
  | zero =>
    rw [repairLoop] at h
    split at h
    next hc =>
      rw [Bool.and_eq_true] at hc
      cases h
      exact hc.2
    next => cases h
  | succ k ih =>
    rw [repairLoop] at h
    split at h
    next hc =>
      rw [Bool.and_eq_true] at hc
      cases h
      exact hc.2
    next => exact ih h

/-- Every success of the whole pipeline went through the Post-Placement
Validator. -/
theorem generate_success_valid {d : ConstraintDoc} {pl : Plot}
    {ps : List Placement} (h : generate d = Result.success pl ps) :
    postValidateB pl ps = true := by
  unfold generate at h
  cases hb : buildModel d with
  | error msgs =>
    rw [hb] at h
    exact Result.noConfusion h
  | ok m =>
    rw [hb] at h
    change (if (feasConflicts m).isEmpty then repairLoop maxRepairRounds m
      else Result.infeasible (feasConflicts m)) = Result.success pl ps at h
    by_cases hf : (feasConflicts m).isEmpty = true
    · rw [if_pos hf] at h
      exact repairLoop_success_valid h
    · rw [if_neg hf] at h
      exact Result.noConfusion h

/-! ### Claim theorems: placement core -/

/-- C1: for every successful generation result the placed rectangles are
pairwise non-overlapping under the open-interval test — for every pair of
placements, their x-intervals and y-intervals do not both have a
positive-length intersection (edge-touching is not overlap). -/
theorem generate_no_overlap (d : ConstraintDoc) (pl : Plot) (ps : List Placement)
    (h : generate d = Result.success pl ps) :
    ps.Pairwise fun a b => ¬ Overlaps a.rect b.rect :=
  postValidateB_no_overlap (generate_success_valid h)

set_option maxRecDepth 10000 in
unseal Rat.mul Rat.add Rat.sub Rat.inv in
/-- Witness for C1 at the concrete feasible request `exDoc`. -/
theorem generate_no_overlap_witness :
    exPs.Pairwise fun a b => ¬ Overlaps a.rect b.rect :=
  generate_no_overlap exDoc ⟨100, 60⟩ exPs (by decide)

/-- C2: for every successful generation result, every placed rectangle
lies entirely within the plot: nonnegative corner and extents bounded by
the plot dimensions. -/
theorem generate_containment (d : ConstraintDoc) (pl : Plot) (ps : List Placement)
    (h : generate d = Result.success pl ps) :
    ∀ p ∈ ps, 0 ≤ p.rect.x ∧ 0 ≤ p.rect.y ∧
      p.rect.x + p.rect.w ≤ pl.width ∧ p.rect.y + p.rect.h ≤ pl.height :=
  postValidateB_bounds (generate_success_valid h)

set_option maxRecDepth 10000 in
unseal Rat.mul Rat.add Rat.sub Rat.inv in
/-- Witness for C2 at the park placement of the concrete request `exDoc`. -/
theorem generate_containment_witness :
    0 ≤ (Placement.mk "park" "park" ⟨0, 0, 30, 20⟩).rect.x ∧
    0 ≤ (Placement.mk "park" "park" ⟨0, 0, 30, 20⟩).rect.y ∧
    (Placement.mk "park" "park" ⟨0, 0, 30, 20⟩).rect.x +
      (Placement.mk "park" "park" ⟨0, 0, 30, 20⟩).rect.w ≤ (100 : ℚ) ∧
    (Placement.mk "park" "park" ⟨0, 0, 30, 20⟩).rect.y +
      (Placement.mk "park" "park" ⟨0, 0, 30, 20⟩).rect.h ≤ (60 : ℚ) :=
  generate_containment exDoc ⟨100, 60⟩ exPs (by decide)
    (Placement.mk "park" "park" ⟨0, 0, 30, 20⟩) (by decide)

/-- C3: for every successful generation result, no bathroom placement
overlaps, or shares a boundary segment of non-zero length with, an
entrance placement (the privacy rule enforced during private-area
placement and re-checked by the Post-Placement Validator). -/
theorem generate_privacy (d : ConstraintDoc) (pl : Plot) (ps : List Placement)
    (h : generate d = Result.success pl ps) :
    ∀ b ∈ ps, bathroomKind b.kind = true →
      ∀ e ∈ ps, entranceKind e.kind = true →
        ¬ PrivacyViolation b.rect e.rect :=
  postValidateB_privacy (generate_success_valid h)

set_option maxRecDepth 10000 in
unseal Rat.mul Rat.add Rat.sub Rat.inv in
/-- Witness for C3 at the bathroom and entrance placements of `exDoc`. -/
theorem generate_privacy_witness :
    ¬ PrivacyViolation (Placement.mk "bathroom" "bathroom" ⟨76, 0, 6, 6⟩).rect
      (Placement.mk "entrance" "entrance" ⟨30, 0, 10, 8⟩).rect :=
  generate_privacy exDoc ⟨100, 60⟩ exPs (by decide)
    (Placement.mk "bathroom" "bathroom" ⟨76, 0, 6, 6⟩) (by decide) (by decide)
    (Placement.mk "entrance" "entrance" ⟨30, 0, 10, 8⟩) (by decide) (by decide)

/-- C4: the pipeline is deterministic — two calls on identical Constraint
Documents produce identical results (the core is a pure function of the
document; it uses no unordered iteration and no randomness). -/
theorem generate_deterministic (d₁ d₂ : ConstraintDoc) (h : d₁ = d₂) :
    generate d₁ = generate d₂ := by
  rw [h]

/-- Witness for C4 at the concrete request `exDoc`. -/
theorem generate_deterministic_witness : generate exDoc = generate exDoc :=
  generate_deterministic exDoc exDoc rfl

/-- C6: a Model whose total requested element area exceeds the plot area
times the slack factor is rejected before any placement is attempted: the
pipeline returns the `InfeasibleRequestError` conflicts, which contain the
Conflict referencing total-area-exceeds-plot. -/
theorem feasibility_rejects (d : ConstraintDoc) (m : Model)
    (hb : buildModel d = Except.ok m)
    (ha : slackFactor * plotArea m.plot < sumAreas m.elements) :
    generate d = Result.infeasible (feasConflicts m) ∧
    "total-area-exceeds-plot" ∈ feasConflicts m := by
  have hmem : "total-area-exceeds-plot" ∈ feasConflicts m := by
    unfold feasConflicts
    rw [if_pos ha]
    exact List.mem_append_left _ (List.mem_singleton.mpr rfl)
  refine ⟨?_, hmem⟩
  have hne : feasConflicts m ≠ [] := by
    intro h0
    rw [h0] at hmem
    exact absurd hmem (List.not_mem_nil _)
  unfold generate
  rw [hb]
  change (if (feasConflicts m).isEmpty then repairLoop maxRepairRounds m
    else Result.infeasible (feasConflicts m)) = Result.infeasible (feasConflicts m)
  rw [if_neg]
  simp only [List.isEmpty_iff]
  exact hne

set_option maxRecDepth 10000 in
unseal Rat.mul Rat.add Rat.sub Rat.inv in
/-- Witness for C6 at the concrete infeasible request `infDoc` (10x10
plot, one element of area 200). -/
theorem feasibility_rejects_witness :
    generate infDoc = Result.infeasible (feasConflicts infModel) ∧
    "total-area-exceeds-plot" ∈ feasConflicts infModel :=
  feasibility_rejects infDoc infModel (by rfl) (by decide)

/-! ### Lemmas for locked-element fidelity -/

/-- The Repairer never changes an element's id. -/
theorem amendElem_id (off : List String) (e : MElem) :
    (amendElem off e).id = e.id := by
  unfold amendElem
  split_ifs <;> rfl

/-- The Repairer never changes an element's locked flag. -/
theorem amendElem_locked_field (off : List String) (e : MElem) :
    (amendElem off e).locked = e.locked := by
  unfold amendElem
  split_ifs <;> rfl

/-- The Repairer leaves locked elements untouched. -/
theorem amendElem_of_locked (off : List String) (e : MElem)
    (h : e.locked = true) : amendElem off e = e := by
  simp [amendElem, h]

/-- Amending preserves the sublist of locked elements. -/
theorem filter_locked_map_amend (off : List String) (l : List MElem) :
    (l.map (amendElem off)).filter (fun e => e.locked) =
      l.filter (fun e => e.locked) := by
  induction l with
  | nil => rfl
  | cons e t ih =>
    simp only [List.map_cons, List.filter_cons, amendElem_locked_field]
    cases he : e.locked with
    | false => exact ih
    | true =>
      rw [amendElem_of_locked off e he]
      simp only [ih]

/-- Amending preserves the id list. -/
theorem map_id_map_amend (off : List String) (l : List MElem) :
    (l.map (amendElem off)).map (fun e => e.id) = l.map (fun e => e.id) := by
  rw [List.map_map]
  exact List.map_congr_left fun e _ => amendElem_id off e

/-- Amended Models keep the plot. -/
theorem amend_plot (m : Model) (off : List String) :
    (amend m off).plot = m.plot := rfl

/-- Amended Models keep the locked elements. -/
theorem amend_locked (m : Model) (off : List String) :
    (amend m off).elements.filter (fun e => e.locked) =
      m.elements.filter (fun e => e.locked) :=
  filter_locked_map_amend off m.elements

/-- Amended Models keep the id list. -/
theorem amend_ids (m : Model) (off : List String) :
    (amend m off).elements.map (fun e => e.id) =
      m.elements.map (fun e => e.id) :=
  map_id_map_amend off m.elements

/-- A successful repair loop run is the placement of some Model with the
same plot, the same locked elements and the same id list as the input. -/
theorem repairLoop_success_structure {n : Nat} {m : Model} {pl : Plot}
    {ps : List Placement} (h : repairLoop n m = Result.success pl ps) :
    ∃ m' : Model, m'.plot = m.plot ∧
      m'.elements.filter (fun e => e.locked) =
        m.elements.filter (fun e => e.locked) ∧
      m'.elements.map (fun e => e.id) = m.elements.map (fun e => e.id) ∧
      pl = m'.plot ∧ ps = (placeModel m').1 := by
  induction n generalizing m with
  | zero =>
    rw [repairLoop] at h
    split at h
    next =>
      cases h
      exact ⟨m, rfl, rfl, rfl, rfl, rfl⟩
    next => cases h
  | succ k ih =>
    rw [repairLoop] at h
    split at h
    next =>
      cases h
      exact ⟨m, rfl, rfl, rfl, rfl, rfl⟩
    next =>
      obtain ⟨m', hp, hlk, hid, hpl, hps⟩ := ih h
      rw [amend_plot] at hp
      rw [amend_locked] at hlk
      rw [amend_ids] at hid
      exact ⟨m', hp, hlk, hid, hpl, hps⟩

/-- Membership through stable insertion. -/
theorem mem_insertBy {le : α → α → Bool} {x a : α} {l : List α} :
    a ∈ insertBy le x l ↔ a = x ∨ a ∈ l := by
  induction l with
  | nil => simp [insertBy]
  | cons y ys ih =>
    unfold insertBy
    split
    · simp [List.mem_cons]
    · rw [List.mem_cons, ih, List.mem_cons]
      tauto

/-- Sorting does not change membership. -/
theorem mem_sortBy {le : α → α → Bool} {a : α} {l : List α} :
    a ∈ sortBy le l ↔ a ∈ l := by
  induction l with
  | nil => simp [sortBy]
  | cons x xs ih =>
    unfold sortBy
    rw [mem_insertBy, ih, List.mem_cons]

/-- Everything a placement pass adds comes from its element queue. -/
theorem foldl_placeStep_ids (prev : List Placement) :
    ∀ (es : List MElem) (st : PassState), ∀ p ∈ (es.foldl (placeStep prev) st).placed,
      p ∈ st.placed ∨ p.id ∈ es.map fun e => e.id := by
  intro es
  induction es with
  | nil => intro st p hp; exact Or.inl hp
  | cons e t ih =>
    intro st p hp
    rw [List.foldl_cons] at hp
    rcases ih (placeStep prev st e) p hp with hin | hid
    · revert hin
      unfold placeStep
      cases htp : tryPlace st.free e ((prev ++ st.placed).filter fun q => entranceKind q.kind) with
      | none =>
        intro hin
        exact Or.inl hin
      | some rf =>
        intro hin
        rcases List.mem_append.mp hin with h1 | h2
        · exact Or.inl h1
        · right
          rw [List.mem_singleton.mp h2]
          simp
    · right
      rw [List.map_cons]
      exact List.mem_cons_of_mem _ hid

/-- Everything a placement pass places comes from its element queue. -/
theorem placeSeq_ids (prev : List Placement) (free : List Rect)
    (es : List MElem) : ∀ p ∈ (placeSeq prev free es).placed,
      p.id ∈ es.map fun e => e.id := by
  intro p hp
  rcases foldl_placeStep_ids prev es ⟨[], free, []⟩ p hp with hin | hid
  · cases hin
  · exact hid

/-- C5: locked-element fidelity — in every successful generation result,
each locked element of the Constraint Model appears placed exactly at its
input-declared dimensions and position-token-resolved coordinates, and no
other placement carries its id; later placement phases and the Repairer
never change a locked element's placement. -/
theorem locked_element_fidelity (d : ConstraintDoc) (m : Model) (pl : Plot)
    (ps : List Placement) (e : MElem)
    (hb : buildModel d = Except.ok m)
    (hnd : (m.elements.map fun x => x.id).Nodup)
    (hg : generate d = Result.success pl ps)
    (he : e ∈ m.elements) (hl : e.locked = true) :
    mkPlacement m.plot e ∈ ps ∧
    ∀ p ∈ ps, p.id = e.id → p = mkPlacement m.plot e := by
  unfold generate at hg
  rw [hb] at hg
  change (if (feasConflicts m).isEmpty then repairLoop maxRepairRounds m
    else Result.infeasible (feasConflicts m)) = Result.success pl ps at hg
  by_cases hf : (feasConflicts m).isEmpty = true
  case neg =>
    rw [if_neg hf] at hg
    exact Result.noConfusion hg
  rw [if_pos hf] at hg
  obtain ⟨m', hp, hlk, hid, hpl, hps⟩ := repairLoop_success_structure hg
  have heF : e ∈ m.elements.filter fun x => x.locked := List.mem_filter.mpr ⟨he, hl⟩
  have heF' : e ∈ m'.elements.filter fun x => x.locked := by rw [hlk]; exact heF
  have he' : e ∈ m'.elements := (List.mem_filter.mp heF').1
  have hnd' : (m'.elements.map fun x => x.id).Nodup := by rw [hid]; exact hnd
  have hps' : ps = phase1 m' ++ (pass2 m').placed ++ (pass3 m').placed := hps
  constructor
  · rw [hps', ← hp]
    exact List.mem_append_left _ (List.mem_append_left _ (List.mem_map_of_mem _ heF'))
  · intro p hpmem hpid
    rw [hps'] at hpmem
    rcases List.mem_append.mp hpmem with hp12 | hp3
    · rcases List.mem_append.mp hp12 with hp1 | hp2
      · obtain ⟨f, hfF, hpf⟩ := List.mem_map.mp hp1
        have hf' : f ∈ m'.elements := (List.mem_filter.mp hfF).1
        have hfid : f.id = e.id := by
          rw [← hpid, ← hpf]
          rfl
        have hfe : f = e := List.inj_on_of_nodup_map hnd' hf' he' hfid
        rw [← hpf, hfe, hp]
      · exfalso
        have hp2' : p ∈ (placeSeq (phase1 m') (freeAfterPhase1 m') (pubElems m')).placed := hp2
        have hid2 := placeSeq_ids _ _ _ p hp2'
        obtain ⟨f, hfmem, hfid⟩ := List.mem_map.mp hid2
        have hfmem' : f ∈ (m'.elements.filter fun x => !x.locked).filter
            fun x => !privateKind x.kind := mem_sortBy.mp hfmem
        have hfnl : f ∈ m'.elements.filter fun x => !x.locked :=
          (List.mem_filter.mp hfmem').1
        have hf' : f ∈ m'.elements := (List.mem_filter.mp hfnl).1
        have hflk : (!f.locked) = true := (List.mem_filter.mp hfnl).2
        have hfe : f = e := List.inj_on_of_nodup_map hnd' hf' he'
          (by rw [hfid, hpid])
        rw [hfe, hl] at hflk
        cases hflk
    · exfalso
      have hp3' : p ∈ (placeSeq (phase1 m' ++ (pass2 m').placed) (pass2 m').free
          (prvElems m')).placed := hp3
      have hid3 := placeSeq_ids _ _ _ p hp3'
      obtain ⟨f, hfmem, hfid⟩ := List.mem_map.mp hid3
      have hfmem' : f ∈ (m'.elements.filter fun x => !x.locked).filter
          fun x => privateKind x.kind := mem_sortBy.mp hfmem
      have hfnl : f ∈ m'.elements.filter fun x => !x.locked :=
        (List.mem_filter.mp hfmem').1
      have hf' : f ∈ m'.elements := (List.mem_filter.mp hfnl).1
      have hflk : (!f.locked) = true := (List.mem_filter.mp hfnl).2
      have hfe : f = e := List.inj_on_of_nodup_map hnd' hf' he'
        (by rw [hfid, hpid])
      rw [hfe, hl] at hflk
      cases hflk

set_option maxRecDepth 10000 in
unseal Rat.mul Rat.add Rat.sub Rat.inv in
/-- Witness for C5 at the locked park element of `exDoc`. -/
theorem locked_element_fidelity_witness :
    mkPlacement exModel.plot exPark ∈ exPs :=
  (locked_element_fidelity exDoc exModel ⟨100, 60⟩ exPs exPark (by rfl) (by decide)
    (by decide) (by decide) rfl).1
